import Mathlib

/-!
Verification of the siwETHOS federated authorization broker.

This file is a shallow embedding of the core of the repository:
the in-memory key-value store (src/lib/storage/memory.ts), the client
registry (src/lib/clients.ts), authorization-code management and the
JWT issuer/verifier (src/lib/auth.ts), the token endpoint
(POST /api/auth/token), the wallet verification endpoint
(POST /api/auth/wallet/verify), the userinfo endpoint, and the
Twitter OAuth callback score gate.

Conventions:
- time is in milliseconds as a natural number (Date.now());
- store keys "auth:client:X", "auth:code:X", "auth:state:X", "nonce:X",
  "ethos:cache:X" are modelled as pairs of a kind tag and the suffix;
  the string prefixes are pairwise prefix-free, so the two key spaces
  are isomorphic;
- JavaScript string falsiness (undefined, null or empty) is modelled on
  Option String;
- external capabilities that the repository only consumes (Web Crypto
  hashing, the jose JWT library, the SIWE parsing/verification library,
  the Ethos reputation API, the Twitter API) enter as explicit function
  parameters or as definitions marked as modelled from the spec.
-/

/-- Kind tag of a storage key, standing for the distinct string prefixes
used by the source: "auth:client:", "auth:code:", "auth:state:",
"nonce:" and "ethos:cache:". -/
inductive KeyKind where
  | client
  | authCode
  | authState
  | nonceK
  | ethosCache
deriving DecidableEq

/-- Storage key: a kind tag plus the identifier appended to the prefix. -/
structure StoreKey where
  kind : KeyKind
  ident : String
deriving DecidableEq

/-- Key of a registered client record ("auth:client:" ++ id). -/
def clientKey (id : String) : StoreKey := ⟨.client, id⟩

/-- Key of a stored authorization code ("auth:code:" ++ code). -/
def authCodeKey (code : String) : StoreKey := ⟨.authCode, code⟩

/-- Key of a stored SIWE nonce ("nonce:" ++ nonce). -/
def nonceKey (n : String) : StoreKey := ⟨.nonceK, n⟩

/-- Stored item of the MemoryAdapter: a value plus an optional absolute
expiry time in milliseconds (memory.ts, StoredItem). -/
structure MemItem (α : Type) where
  value : α
  expiresAt : Option Nat
deriving DecidableEq

/-- State of the MemoryAdapter Map, as an association list with unique
keys (memory.ts, MemoryAdapter.store). -/
def MemStore (α : Type) : Type := List (StoreKey × MemItem α)

instance {α : Type} [DecidableEq α] : DecidableEq (MemStore α) :=
  inferInstanceAs (DecidableEq (List (StoreKey × MemItem α)))

/-- Raw Map lookup (this.store.get(key)). -/
def memLookup {α : Type} : MemStore α → StoreKey → Option (MemItem α)
  | [], _ => none
  | (k2, it) :: rest, k => if k2 = k then some it else memLookup rest k

/-- Map delete (this.store.delete(key)). -/
def memDelete {α : Type} (s : MemStore α) (k : StoreKey) : MemStore α :=
  s.filter (fun e => decide (e.1 ≠ k))

/-- Map set, replacing an existing entry for the key (this.store.set). -/
def memSetItem {α : Type} : MemStore α → StoreKey → MemItem α → MemStore α
  | [], k, it => [(k, it)]
  | (k2, it2) :: rest, k, it =>
      if k2 = k then (k, it) :: rest else (k2, it2) :: memSetItem rest k it

/-- MemoryAdapter.get: returns null when the key is absent; when the item
carries an expiry in the past, deletes it and returns null; otherwise
returns the value (memory.ts lines 18-32). -/
def memGet {α : Type} (now : Nat) (s : MemStore α) (k : StoreKey) :
    Option α × MemStore α :=
  match memLookup s k with
  | none => (none, s)
  | some item =>
    match item.expiresAt with
    | some t => if now > t then (none, memDelete s k) else (some item.value, s)
    | none => (some item.value, s)

/-- MemoryAdapter.set: stores the value with expiresAt = now + ttl * 1000
when a TTL in seconds is given (memory.ts lines 34-41). -/
def memSet {α : Type} (now : Nat) (s : MemStore α) (k : StoreKey) (v : α)
    (ttlSeconds : Option Nat) : MemStore α :=
  memSetItem s k ⟨v, ttlSeconds.map (fun t => now + t * 1000)⟩

theorem memLookup_memDelete_self {α : Type} (s : MemStore α) (k : StoreKey) :
    memLookup (memDelete s k) k = none := by
  induction s with
  | nil => rfl
  | cons e rest ih =>
    by_cases h : e.1 = k
    · simp [memDelete, memLookup, h] at ih ⊢
      exact ih
    · simpa [memDelete, memLookup, h] using ih

theorem memLookup_memDelete_ne {α : Type} (s : MemStore α) (k k2 : StoreKey)
    (h : k2 ≠ k) : memLookup (memDelete s k) k2 = memLookup s k2 := by
  induction s with
  | nil => rfl
  | cons e rest ih =>
    obtain ⟨ek, eit⟩ := e
    by_cases he : ek = k
    · subst he
      have hne : ¬ ek = k2 := fun hk => h (hk ▸ rfl)
      simp [memDelete, memLookup, hne] at ih ⊢
      exact ih
    · by_cases he2 : ek = k2
      · subst he2
        simp [memDelete, memLookup, he]
      · simpa [memDelete, memLookup, he, he2] using ih

theorem memLookup_memSetItem_ne {α : Type} (s : MemStore α) (k k2 : StoreKey)
    (it : MemItem α) (h : k2 ≠ k) :
    memLookup (memSetItem s k it) k2 = memLookup s k2 := by
  have hk : ¬ k = k2 := fun hk => h hk.symm
  induction s with
  | nil => simp [memSetItem, memLookup, hk]
  | cons e rest ih =>
    obtain ⟨ek, eit⟩ := e
    by_cases he : ek = k
    · subst he
      simp [memSetItem, memLookup, hk]
    · by_cases he2 : ek = k2
      · subst he2
        simp [memSetItem, memLookup, he, hk]
      · simp [memSetItem, memLookup, he, he2]
        exact ih

theorem memGet_of_lookup_none {α : Type} (now : Nat) (s : MemStore α)
    (k : StoreKey) (h : memLookup s k = none) : memGet now s k = (none, s) := by
  simp [memGet, h]

theorem memGet_fst_some_snd {α : Type} (now : Nat) (s : MemStore α)
    (k : StoreKey) (v : α) (h : (memGet now s k).1 = some v) :
    (memGet now s k).2 = s := by
  unfold memGet at h ⊢
  cases hl : memLookup s k with
  | none => simp [hl] at h
  | some item =>
    cases hexp : item.expiresAt with
    | none => simp [hl, hexp]
    | some t =>
      by_cases ht : now > t
      · simp [hl, hexp, ht] at h
      · simp [hl, hexp, ht]

theorem memGet_memDelete_self {α : Type} (now : Nat) (s : MemStore α)
    (k : StoreKey) : memGet now (memDelete s k) k = (none, memDelete s k) :=
  memGet_of_lookup_none now _ k (memLookup_memDelete_self s k)

/-- Truthiness of an optional JavaScript string: undefined, null and the
empty string are falsy. -/
def jsFalsy : Option String → Bool
  | none => true
  | some s => s.isEmpty

/-- JavaScript a || b on an optional string and a default. -/
def jsOrStr : Option String → String → String
  | none, d => d
  | some s, d => if s.isEmpty then d else s

/-- Ethos user profile as returned by the reputation API
(src/lib/ethos.ts, interface EthosUser; the nested stats and
attestation details not read by the code under verification are
omitted). -/
structure EthosUser where
  id : Int
  profileId : Int
  displayName : String
  username : Option String
  avatarUrl : Option String
  score : Int
  status : String
  userkeys : List String
deriving DecidableEq

/-- Registered client record (src/lib/clients.ts, interface AuthClient). -/
structure AuthClient where
  clientId : String
  clientSecretHash : String
  name : String
  redirectUris : List String
  createdAt : Nat
deriving DecidableEq

/-- Authorization code payload (src/lib/auth.ts, interface AuthCodeData). -/
structure AuthCodeData where
  clientId : String
  redirectUri : String
  scope : String
  state : String
  authMethod : String
  ethosUser : EthosUser
  walletAddress : Option String
  createdAt : Nat
deriving DecidableEq

/-- Stored nonce record (the nonce endpoint stores createdAt/expiresAt;
expiresAt is absent when the adapter hands the raw JSON string back
without parsing it, as the memory adapter does). -/
structure NonceVal where
  expiresAt : Option Nat
deriving DecidableEq

/-- Value stored in the shared key-value store; the constructor
corresponds to the key prefix under which the source stores it. -/
inductive StoreVal where
  | client (c : AuthClient)
  | authCode (d : AuthCodeData)
  | nonce (n : NonceVal)
deriving DecidableEq

/-- Projection used where the source casts the stored JSON to AuthClient. -/
def asClient : Option StoreVal → Option AuthClient
  | some (.client c) => some c
  | _ => none

/-- Projection used where the source casts the stored JSON to AuthCodeData. -/
def asAuthCode : Option StoreVal → Option AuthCodeData
  | some (.authCode d) => some d
  | _ => none

/-- Projection used where the source casts the stored JSON to the nonce
record. -/
def asNonce : Option StoreVal → Option NonceVal
  | some (.nonce n) => some n
  | _ => none

/-- Shared broker store. -/
def BrokerStore : Type := MemStore StoreVal

instance : DecidableEq BrokerStore := inferInstanceAs (DecidableEq (MemStore StoreVal))

/-- getAuthCode (src/lib/auth.ts lines 357-367): reads the code record
and, when present, deletes it, returning the data. The read and the
delete are two separate store operations. -/
def getAuthCode (now : Nat) (s : BrokerStore) (code : String) :
    Option AuthCodeData × BrokerStore :=
  match memGet now s (authCodeKey code) with
  | (v, s1) =>
    match asAuthCode v with
    | some d => (some d, memDelete s1 (authCodeKey code))
    | none => (none, s1)

/-- generateAuthCode (src/lib/auth.ts lines 341-352) with the random
code value passed in: stores the data under the code with a 300 second
TTL. -/
def generateAuthCode (now : Nat) (s : BrokerStore) (code : String)
    (data : AuthCodeData) : BrokerStore :=
  memSet now s (authCodeKey code) (.authCode data) (some 300)

/-- getClient (src/lib/clients.ts lines 34-37). -/
def getClient (now : Nat) (s : BrokerStore) (clientId : String) :
    Option AuthClient × BrokerStore :=
  match memGet now s (clientKey clientId) with
  | (v, s1) => (asClient v, s1)

/-- validateClient (src/lib/clients.ts lines 42-58): fetches the client
and compares the salted hash of the presented secret against the stored
hash. The Web Crypto SHA-256 digest is an external capability and is
passed in as the function hash. -/
def validateClient (hash : String → String) (now : Nat) (s : BrokerStore)
    (clientId clientSecret : String) : Option AuthClient × BrokerStore :=
  match getClient now s clientId with
  | (none, s1) => (none, s1)
  | (some client, s1) =>
    if client.clientSecretHash ≠ hash clientSecret then (none, s1)
    else (some client, s1)

theorem validateClient_fst_some_snd (hash : String → String) (now : Nat)
    (s : BrokerStore) (i sec : String) (c : AuthClient)
    (h : (validateClient hash now s i sec).1 = some c) :
    (validateClient hash now s i sec).2 = s := by
  unfold validateClient getClient at h ⊢
  cases hg : memGet now s (clientKey i) with
  | mk v s1 =>
    cases hv : asClient v with
    | none => simp [hg, hv] at h
    | some cl =>
      have hget : (memGet now s (clientKey i)).1 = some (StoreVal.client cl) := by
        rw [hg]
        cases v with
        | none => simp [asClient] at hv
        | some sv =>
          cases sv with
          | client c2 => simp [asClient] at hv; simp [hv]
          | authCode d => simp [asClient] at hv
          | nonce n => simp [asClient] at hv
      have hs1 : s1 = s := by
        have := memGet_fst_some_snd now s (clientKey i) _ hget
        rw [hg] at this
        exact this
      subst hs1
      by_cases hh : cl.clientSecretHash ≠ hash sec
      · simp [hg, hv, hh] at h
      · simp [hg, hv, hh]

/-- Parsed URL pieces used by the client registry. Simplified model of
the platform URL constructor (an external capability), restricted to
the scheme://host[:port]/path shape: the scheme is the alphabetic run
before "://", the hostname is the authority up to the first slash with
any :port stripped. Parsing fails (the constructor throws) when the
scheme or hostname is empty or the scheme is not alphabetic. -/
structure URLParts where
  scheme : List Char
  hostname : List Char
deriving DecidableEq

/-- Helper splitting a character list at the first "://". -/
def splitSchemeAux : List Char → List Char → Option (List Char × List Char)
  | acc, ':' :: '/' :: '/' :: rest => some (acc.reverse, rest)
  | acc, c :: rest => splitSchemeAux (c :: acc) rest
  | _, [] => none

/-- Model of the URL constructor: new URL(uri). -/
def parseURL (uri : String) : Option URLParts :=
  match splitSchemeAux [] uri.toList with
  | none => none
  | some (sch, rest) =>
    if sch.isEmpty then none
    else if ¬ sch.all Char.isAlpha then none
    else
      let authority := rest.takeWhile (fun c => c ≠ '/')
      let hostname := authority.takeWhile (fun c => c ≠ ':')
      if hostname.isEmpty then none else some ⟨sch, hostname⟩

/-- isLocalhostUri (src/lib/clients.ts lines 63-74): hostname is
localhost, 127.0.0.1 or ends in .localhost. -/
def isLocalhostUri (uri : String) : Bool :=
  match parseURL uri with
  | none => false
  | some u =>
    u.hostname = "localhost".toList ∨ u.hostname = "127.0.0.1".toList ∨
      (".localhost".toList.isSuffixOf u.hostname)

/-- isSecureUri (src/lib/clients.ts lines 79-86): protocol is https. -/
def isSecureUri (uri : String) : Bool :=
  match parseURL uri with
  | none => false
  | some u => u.scheme = "https".toList

/-- Backtracking matcher for the regex the source builds from a wildcard
pattern (src/lib/clients.ts lines 132-137): every regex metacharacter in
the pattern is escaped except the asterisk, which becomes the character
class term for one or more non-slash characters, and the whole regex is
anchored at both ends. The first argument is recursion fuel, always
sufficient because every recursive call shortens pattern plus input. -/
def wildcardStep : Nat → List Char → List Char → Bool
  | 0, _, _ => false
  | _ + 1, [], [] => true
  | _ + 1, [], _ :: _ => false
  | _ + 1, '*' :: _, [] => false
  | fuel + 1, '*' :: pt, c :: s =>
      c ≠ '/' && (wildcardStep fuel pt s || wildcardStep fuel ('*' :: pt) s)
  | _ + 1, _ :: _, [] => false
  | fuel + 1, c :: pt, d :: s => c = d && wildcardStep fuel pt s

/-- Test of the anchored wildcard regex against a candidate URI. -/
def wildcardRegexTest (pattern uri : String) : Bool :=
  let p := pattern.toList
  let u := uri.toList
  wildcardStep (p.length + u.length + 1) p u

/-- validateRedirectUri (src/lib/clients.ts lines 96-142): look up the
client; reject syntactically invalid URIs; allow any localhost URI for
the demo client; when the sole registered URI is the sentinel "*", allow
secure or localhost URIs; otherwise accept when some registered URI is
an exact match or a wildcard pattern whose regex matches. -/
def validateRedirectUri (now : Nat) (s : BrokerStore)
    (clientId redirectUri : String) : Bool :=
  match asClient (memGet now s (clientKey clientId)).1 with
  | none => false
  | some client =>
    if (parseURL redirectUri).isNone then false
    else if clientId = "demo_client" && isLocalhostUri redirectUri then true
    else if client.redirectUris = ["*"] then
      isSecureUri redirectUri || isLocalhostUri redirectUri
    else
      client.redirectUris.any (fun u =>
        u = redirectUri ||
          (u.toList.contains '*' && wildcardRegexTest u redirectUri))

/-- Access token claim set (src/lib/auth.ts, interface
AccessTokenPayload). -/
structure AccessTokenPayload where
  sub : String
  name : String
  picture : Option String
  ethos_profile_id : Int
  ethos_username : Option String
  ethos_score : Int
  ethos_status : String
  ethos_attestations : List String
  auth_method : String
  wallet_address : String
  client_id : String
  scope : String
deriving DecidableEq

/-- Signed JWT. Modelled from the spec: the jose HS256 sign/verify
capability is external to the repository; a token records the claim
set, the registered claims set by the issuer, and the secret that
signed it, and signature verification succeeds exactly for that
secret. -/
structure Jwt where
  payload : AccessTokenPayload
  iss : String
  aud : String
  iat : Nat
  exp : Nat
  signedWith : String
deriving DecidableEq

/-- Failure cases of jose jwtVerify relevant here. Modelled from the
spec: the jose library (external) rejects with its own diagnostic
message per cause. -/
inductive JoseErr where
  | signatureInvalid
  | issuerMismatch
  | audienceMismatch
  | expired
deriving DecidableEq

/-- Diagnostic message the jose library attaches to each failure.
Modelled from the spec: these are the library internals that §4.5 says
must not reach the caller. -/
def joseErrMessage : JoseErr → String
  | .signatureInvalid => "signature verification failed"
  | .issuerMismatch => "unexpected \"iss\" claim value"
  | .audienceMismatch => "unexpected \"aud\" claim value"
  | .expired => "\"exp\" claim timestamp check failed"

/-- Modelled from the spec: jose jwtVerify(token, secret, {issuer,
audience}) checks the signature, then the issuer, then the audience
when one is expected, then expiry, and returns the claim set. -/
def joseJwtVerify (token : Jwt) (secret issuer : String)
    (audience : Option String) (now : Nat) :
    Except JoseErr AccessTokenPayload :=
  if token.signedWith ≠ secret then .error .signatureInvalid
  else if token.iss ≠ issuer then .error .issuerMismatch
  else if (match audience with
           | some a => decide (token.aud ≠ a)
           | none => false : Bool) then .error .audienceMismatch
  else if token.exp ≤ now then .error .expired
  else .ok token.payload

/-- Token lifetime: JWT_EXPIRY is the fixed string 1h
(src/lib/auth.ts line 246). -/
def JWT_EXPIRY_SECONDS : Nat := 3600

/-- generateAccessToken (src/lib/auth.ts lines 372-403): builds the
claim set from the Ethos user, signs it with the server secret, issuer
set to the broker, audience to the requesting client, and a one hour
expiry. -/
def generateAccessToken (secret issuer : String) (now : Nat)
    (ethosUser : EthosUser) (authMethod walletAddress clientId scope : String) :
    Jwt :=
  { payload :=
      { sub := "ethos:" ++ toString ethosUser.profileId
        name :=
          if ¬ ethosUser.displayName.isEmpty then ethosUser.displayName
          else jsOrStr ethosUser.username
            ("Profile " ++ toString ethosUser.profileId)
        picture := ethosUser.avatarUrl
        ethos_profile_id := ethosUser.profileId
        ethos_username := ethosUser.username
        ethos_score := ethosUser.score
        ethos_status := ethosUser.status
        ethos_attestations := ethosUser.userkeys
        auth_method := authMethod
        wallet_address := walletAddress
        client_id := clientId
        scope := scope }
    iss := issuer
    aud := clientId
    iat := now
    exp := now + JWT_EXPIRY_SECONDS
    signedWith := secret }

/-- verifyAccessToken (src/lib/auth.ts lines 408-422): delegates to jose
and rethrows any failure as an error whose message is the string
Invalid access token: followed by the library message. -/
def verifyAccessToken (secret issuer : String) (now : Nat) (token : Jwt)
    (clientId : Option String) : Except String AccessTokenPayload :=
  match joseJwtVerify token secret issuer clientId now with
  | .ok p => .ok p
  | .error e => .error ("Invalid access token: " ++ joseErrMessage e)

/-- Response of the userinfo endpoint (src/unnamed/part_008). -/
inductive UserinfoResp where
  | unauthorized (error error_description : String)
  | ok (p : AccessTokenPayload)
deriving DecidableEq

/-- GET /userinfo (src/unnamed/part_008): with the bearer token already
extracted from the Authorization header, verifies it without an
expected audience; a missing token yields a generic message, and a
verification failure is echoed as the error_description of an
invalid_token response. -/
def userinfoGET (secret issuer : String) (now : Nat) (token : Option Jwt) :
    UserinfoResp :=
  match token with
  | none => .unauthorized "invalid_token" "Missing or invalid Authorization header"
  | some t =>
    match verifyAccessToken secret issuer now t none with
    | .ok p => .ok p
    | .error msg => .unauthorized "invalid_token" msg

/-- Body of POST /api/auth/token (src/src/app/api/health/route.ts,
second document, lines 41). -/
structure TokenReq where
  grant_type : Option String
  code : Option String
  redirect_uri : Option String
  client_id : Option String
  client_secret : Option String
deriving DecidableEq

/-- Response of the token endpoint. -/
inductive TokenResp where
  | err (error error_description : String) (status : Nat)
  | ok (access_token : Jwt) (token_type : String) (expires_in : Nat)
      (scope : String)
deriving DecidableEq

/-- Whether a token endpoint response is a successful token issuance. -/
def TokenResp.isToken : TokenResp → Bool
  | .ok _ _ _ _ => true
  | .err _ _ _ => false

/-- POST /api/auth/token (src/src/app/api/health/route.ts, second
document, lines 28-116): validates the grant type, required parameters
and client credentials, consumes the authorization code, checks that
the code was issued to the requesting client, checks the redirect URI
only when one is present in the request, and issues the access token. -/
def tokenEndpoint (hash : String → String) (secret issuer : String)
    (now : Nat) (s : BrokerStore) (req : TokenReq) :
    TokenResp × BrokerStore :=
  if req.grant_type ≠ some "authorization_code" then
    (.err "unsupported_grant_type" "Only authorization_code grant is supported" 400, s)
  else if jsFalsy req.code then
    (.err "invalid_request" "Missing code parameter" 400, s)
  else if jsFalsy req.client_id || jsFalsy req.client_secret then
    (.err "invalid_client" "Missing client credentials" 401, s)
  else
    match validateClient hash now s (req.client_id.getD "") (req.client_secret.getD "") with
    | (none, s1) => (.err "invalid_client" "Invalid client credentials" 401, s1)
    | (some _, s1) =>
      match getAuthCode now s1 (req.code.getD "") with
      | (none, s2) =>
        (.err "invalid_grant" "Invalid or expired authorization code" 400, s2)
      | (some authCodeData, s2) =>
        if authCodeData.clientId ≠ req.client_id.getD "" then
          (.err "invalid_grant" "Authorization code was not issued to this client" 400, s2)
        else if ¬ jsFalsy req.redirect_uri &&
            authCodeData.redirectUri ≠ req.redirect_uri.getD "" then
          (.err "invalid_grant" "Redirect URI mismatch" 400, s2)
        else
          (.ok (generateAccessToken secret issuer now authCodeData.ethosUser
              authCodeData.authMethod (authCodeData.walletAddress.getD "")
              (req.client_id.getD "") authCodeData.scope)
            "Bearer" 3600 authCodeData.scope, s2)

/-- Fields of a parsed SIWE message that the wallet verify handler
reads (the SIWE parsing library is external). -/
structure SIWEMessage where
  domain : String
  nonce : String
  expirationTime : Option Nat
deriving DecidableEq

/-- Result of the external SIWE signature verification capability. -/
structure SIWEVerifyResult where
  success : Bool
  address : String
  error : Option String
deriving DecidableEq

/-- Outcome of the external Ethos profile lookup by address. -/
inductive ProfileLookup where
  | found (u : EthosUser)
  | notFound
  | upstreamFailure
deriving DecidableEq

/-- External capabilities consumed by the wallet verify handler:
address format validation, SIWE parsing, SIWE signature verification,
the Ethos profile lookup by address, and the random authorization code
the handler would generate. -/
structure WalletDeps where
  isValidEthereumAddress : String → Bool
  parseSIWEMessage : String → Option SIWEMessage
  verifySIWEMessage : String → String → SIWEVerifyResult
  getProfileByAddress : String → ProfileLookup
  freshCode : String

/-- Body of POST /api/auth/wallet/verify. -/
structure WalletReq where
  message : Option String
  signature : Option String
  address : Option String
  redirect_uri : Option String
  state : Option String
deriving DecidableEq

/-- Response of the wallet verify handler, by error branch of the
source (src/src/app/api/auth/wallet/verify/route.ts). -/
inductive WalletResp where
  | errMissingFields
  | errBadAddress
  | errBadSIWE
  | errInvalidNonce
  | errNonceExpired
  | errBadSignature (msg : String)
  | errMessageExpired
  | errNoProfile
  | errInternal
  | okResp (code : String) (address : String)
deriving DecidableEq

/-- POST /api/auth/wallet/verify (route.ts lines 22-155): validates the
request fields and address format, parses the SIWE message, fetches the
stored nonce (absent gives the invalid-or-expired-nonce error), applies
the stored expiresAt check, deletes the nonce BEFORE invoking signature
verification, verifies the signature, checks the message expiration
time, resolves the Ethos profile, and stores a fresh authorization code
bound to the wallet-auth client. -/
def walletVerify (deps : WalletDeps) (now : Nat) (s : BrokerStore)
    (req : WalletReq) : WalletResp × BrokerStore :=
  if jsFalsy req.message || jsFalsy req.signature || jsFalsy req.address then
    (.errMissingFields, s)
  else if ¬ deps.isValidEthereumAddress (req.address.getD "") then
    (.errBadAddress, s)
  else
    match deps.parseSIWEMessage (req.message.getD "") with
    | none => (.errBadSIWE, s)
    | some parsed =>
      match memGet now s (nonceKey parsed.nonce) with
      | (v, s1) =>
        match asNonce v with
        | none => (.errInvalidNonce, s1)
        | some nonceData =>
          if (match nonceData.expiresAt with
              | some t => decide (t < now)
              | none => false : Bool) then
            (.errNonceExpired, memDelete s1 (nonceKey parsed.nonce))
          else
            let s2 := memDelete s1 (nonceKey parsed.nonce)
            let verifyResult :=
              deps.verifySIWEMessage (req.message.getD "") (req.signature.getD "")
            if ¬ verifyResult.success then
              (.errBadSignature (jsOrStr verifyResult.error "Signature verification failed"), s2)
            else if (match parsed.expirationTime with
                     | some t => decide (t < now)
                     | none => false : Bool) then
              (.errMessageExpired, s2)
            else
              match deps.getProfileByAddress (req.address.getD "") with
              | .notFound => (.errNoProfile, s2)
              | .upstreamFailure => (.errInternal, s2)
              | .found ethosUser =>
                (.okResp deps.freshCode verifyResult.address,
                  generateAuthCode now s2 deps.freshCode
                    { clientId := "wallet-auth"
                      redirectUri := req.redirect_uri.getD ""
                      scope := "profile"
                      state := req.state.getD ""
                      authMethod := "wallet"
                      ethosUser := ethosUser
                      walletAddress := some verifyResult.address
                      createdAt := now })

/-- Whether a wallet verify response means the run reached the
signature verification step (all of these occur after the handler
deleted the nonce). -/
def reachedSignatureStep : WalletResp → Bool
  | .errBadSignature _ => true
  | .errMessageExpired => true
  | .errNoProfile => true
  | .errInternal => true
  | .okResp _ _ => true
  | _ => false

/-- Score carried by the Ethos profile shape used in the Twitter
callback (src/unnamed/part_002, interface EthosProfile). -/
structure TwScore where
  value : Int
deriving DecidableEq

/-- Ethos profile shape used by the Twitter callback handler
(src/unnamed/part_002, interface EthosProfile; the attestation and link
details not read by the score gate and issuance path are omitted). -/
structure TwEthosProfile where
  id : Int
  profileId : Int
  displayName : String
  username : Option String
  avatarUrl : Option String
  score : TwScore
  status : String
deriving DecidableEq

/-- Twitter token endpoint response fields that the callback reads. -/
structure TwitterTokens where
  access_token : String
deriving DecidableEq

/-- Twitter user record that the callback reads. -/
structure TwitterUser where
  id : String
  name : String
  username : String
deriving DecidableEq

/-- Session data the Twitter authorize endpoint put in the oauth_session
cookie (src/unnamed/part_002 lines 42-49). -/
structure TwitterSession where
  redirectUri : String
  state : String
  codeVerifier : String
  minScore : Option Int
deriving DecidableEq

/-- Query parameters of the Twitter callback request. -/
structure TwitterCallbackParams where
  code : Option String
  state : Option String
  error : Option String
  error_description : Option String
deriving DecidableEq

/-- External capabilities consumed by the Twitter callback: the code
exchange against the Twitter token endpoint, the user-info fetch, and
the Ethos profile lookup by x attestation (id with username fallback). -/
structure TwitterDeps where
  exchangeCode : String → String → Option TwitterTokens
  fetchUser : String → Option TwitterUser
  lookupEthosProfile : String → Option String → Option TwEthosProfile

/-- Result of the Twitter callback handler. -/
inductive TwitterCallbackResult where
  | jsonError (error error_description : String) (status : Nat)
  | redirectError (error error_description : String)
  | codeIssued (redirectUri : String) (state : String) (profile : TwEthosProfile)
deriving DecidableEq

/-- GET /auth/twitter/callback (src/unnamed/part_002 lines 113-277):
requires the session cookie, checks the CSRF state, propagates provider
errors, requires the code, exchanges it, fetches the Twitter user,
resolves the Ethos profile (no_ethos_profile when absent), applies the
minimum-score gate with both values interpolated in the description,
and otherwise issues the signed token and redirects back with the code
and original state. -/
def twitterCallback (deps : TwitterDeps) (session : Option TwitterSession)
    (params : TwitterCallbackParams) : TwitterCallbackResult :=
  match session with
  | none => .jsonError "invalid_session" "OAuth session not found" 400
  | some sess =>
    if params.state ≠ some sess.state then
      .redirectError "invalid_state" "State mismatch"
    else if ¬ jsFalsy params.error then
      .redirectError (params.error.getD "") (jsOrStr params.error_description "OAuth error")
    else if jsFalsy params.code then
      .redirectError "invalid_request" "No authorization code"
    else
      match deps.exchangeCode (params.code.getD "") sess.codeVerifier with
      | none => .redirectError "token_error" "Failed to exchange code"
      | some tokens =>
        match deps.fetchUser tokens.access_token with
        | none => .redirectError "user_fetch_error" "Failed to fetch user info"
        | some twitterUser =>
          match deps.lookupEthosProfile twitterUser.id (some twitterUser.username) with
          | none =>
            .redirectError "no_ethos_profile"
              "No Ethos profile linked to this X/Twitter account. Please link your X account at ethos.network first."
          | some ethosProfile =>
            if (match sess.minScore with
                | some m => decide (ethosProfile.score.value < m)
                | none => false : Bool) then
              .redirectError "score_too_low"
                ("Your Ethos score (" ++ toString ethosProfile.score.value ++
                  ") is below the minimum required (" ++
                  toString (sess.minScore.getD 0) ++ ")")
            else
              .codeIssued sess.redirectUri sess.state ethosProfile

/-- Phase of one concurrent redeemer of an authorization code. -/
inductive ConsumerPhase where
  | ready
  | fetched (v : Option AuthCodeData)
  | finished (v : Option AuthCodeData)
deriving DecidableEq

/-- State of two redeemers racing on a shared store. -/
structure RaceSystem where
  store : BrokerStore
  p1 : ConsumerPhase
  p2 : ConsumerPhase
deriving DecidableEq

/-- One scheduler step of a redeemer that consumes the code the way
getAuthCode does: the read (storage.get) and the delete
(storage.delete) are two separate store round trips, so another
redeemer can be scheduled between them. -/
def getThenDeleteStep (now : Nat) (code : String) (s : BrokerStore) :
    ConsumerPhase → BrokerStore × ConsumerPhase
  | .ready =>
    ((memGet now s (authCodeKey code)).2,
      .fetched (asAuthCode (memGet now s (authCodeKey code)).1))
  | .fetched (some d) => (memDelete s (authCodeKey code), .finished (some d))
  | .fetched none => (s, .finished none)
  | p => (s, p)

/-- One scheduler step of a redeemer whose consume is a single atomic
get-and-delete primitive, as the Lua script of the Redis challenge
store is (src/src/lib/webauthn-stores.ts lines 77-103): no other
redeemer can run between the read and the delete. -/
def atomicConsumeStep (now : Nat) (code : String) (s : BrokerStore) :
    ConsumerPhase → BrokerStore × ConsumerPhase
  | .ready =>
    (memDelete (memGet now s (authCodeKey code)).2 (authCodeKey code),
      .finished (asAuthCode (memGet now s (authCodeKey code)).1))
  | p => (s, p)

/-- Scheduler: run one step of redeemer 1 (true) or redeemer 2 (false)
under the given per-redeemer step function. -/
def raceStep (step : BrokerStore → ConsumerPhase → BrokerStore × ConsumerPhase)
    (b : Bool) (sys : RaceSystem) : RaceSystem :=
  if b then ⟨(step sys.store sys.p1).1, (step sys.store sys.p1).2, sys.p2⟩
  else ⟨(step sys.store sys.p2).1, sys.p1, (step sys.store sys.p2).2⟩

/-- Run a schedule (an arbitrary interleaving) from a system state. -/
def runRace (step : BrokerStore → ConsumerPhase → BrokerStore × ConsumerPhase)
    (sched : List Bool) (sys : RaceSystem) : RaceSystem :=
  sched.foldl (fun sys b => raceStep step b sys) sys

/-- Value that getAuthCode would read from a store right now. -/
def fetchAuthCode (now : Nat) (s : BrokerStore) (code : String) :
    Option AuthCodeData :=
  asAuthCode (memGet now s (authCodeKey code)).1

/-- Fixture Ethos user used by concrete witnesses. -/
def sampleUser : EthosUser :=
  { id := 7, profileId := 7, displayName := "Alice", username := some "alice"
    avatarUrl := none, score := 1800, status := "ACTIVE", userkeys := [] }

/-- Fixture hash standing in for the SHA-256 digest in witnesses. -/
def sampleHash (s : String) : String := s ++ "#h"

/-- Fixture registry holding one client whose registered redirect
pattern is the wildcard of the spec example. -/
def wildcardClientStore : BrokerStore :=
  [(clientKey "acme",
    ⟨.client { clientId := "acme", clientSecretHash := "secret#h",
               name := "Acme", redirectUris := ["https://*.example.com/cb"],
               createdAt := 0 }, none⟩)]

/-- C2 counterexample: the claim says validateRedirectUri returns false
for https://a.b.example.com/cb against the registered pattern
https://*.example.com/cb, but the regex the source builds replaces the
asterisk with a character class matching one or more arbitrary
non-slash characters, which spans the dot, so the call returns true. -/
theorem c2_counterexample :
    validateRedirectUri 0 wildcardClientStore "acme"
      "https://a.b.example.com/cb" = true := by decide

/-- C2 (amended): against the registered pattern
https://*.example.com/cb, validateRedirectUri returns true for
https://a.example.com/cb and https://b.example.com/cb and false for
https://example.com/cb; but the asterisk matches one or more non-slash
characters, not exactly one dot-delimited segment, so
https://a.b.example.com/cb is also accepted. -/
theorem c2_wildcard_segments :
    validateRedirectUri 0 wildcardClientStore "acme"
        "https://a.example.com/cb" = true ∧
    validateRedirectUri 0 wildcardClientStore "acme"
        "https://b.example.com/cb" = true ∧
    validateRedirectUri 0 wildcardClientStore "acme"
        "https://example.com/cb" = false ∧
    validateRedirectUri 0 wildcardClientStore "acme"
        "https://a.b.example.com/cb" = true := by
  refine ⟨by decide, by decide, by decide, by decide⟩

/-- C9: a token issued by the access-token issuer for a profile with
profileId 42 and score 1500 verifies before its expiry to a claim set
carrying ethos_profile_id 42 and ethos_score 1500, and fails
verification once the configured one hour lifetime has elapsed. -/
theorem c9_token_round_trip (secret issuer authMethod wallet clientId scope : String)
    (u : EthosUser) (now nv : Nat)
    (h42 : u.profileId = 42) (h1500 : u.score = 1500) :
    (nv < now + JWT_EXPIRY_SECONDS →
      verifyAccessToken secret issuer nv
          (generateAccessToken secret issuer now u authMethod wallet clientId scope)
          none =
        .ok (generateAccessToken secret issuer now u authMethod wallet
            clientId scope).payload ∧
      (generateAccessToken secret issuer now u authMethod wallet
          clientId scope).payload.ethos_profile_id = 42 ∧
      (generateAccessToken secret issuer now u authMethod wallet
          clientId scope).payload.ethos_score = 1500) ∧
    (now + JWT_EXPIRY_SECONDS ≤ nv →
      verifyAccessToken secret issuer nv
          (generateAccessToken secret issuer now u authMethod wallet clientId scope)
          none =
        .error ("Invalid access token: " ++ joseErrMessage .expired)) := by
  constructor
  · intro h
    have hnle : ¬ (now + JWT_EXPIRY_SECONDS ≤ nv) := by omega
    refine ⟨?_, by simp [generateAccessToken, h42], by simp [generateAccessToken, h1500]⟩
    simp [verifyAccessToken, joseJwtVerify, generateAccessToken, hnle]
  · intro h
    simp [verifyAccessToken, joseJwtVerify, generateAccessToken, h]

/-- Profile fixture of the round-trip property in §8 of the spec. -/
def user42 : EthosUser :=
  { id := 42, profileId := 42, displayName := "Bob", username := none,
    avatarUrl := none, score := 1500, status := "ACTIVE", userkeys := [] }

/-- Witness for C9 at a concrete profile, issuance at time 0,
verification at 1000 ms (valid) and at 3600 ms (on the model second
scale, past the lifetime). -/
theorem c9_round_trip_witness :
    verifyAccessToken "k" "iss" 1000
        (generateAccessToken "k" "iss" 0 user42 "wallet" "0xA" "demo" "profile")
        none =
      .ok (generateAccessToken "k" "iss" 0 user42 "wallet" "0xA" "demo"
          "profile").payload ∧
    (generateAccessToken "k" "iss" 0 user42 "wallet" "0xA" "demo"
        "profile").payload.ethos_profile_id = 42 ∧
    (generateAccessToken "k" "iss" 0 user42 "wallet" "0xA" "demo"
        "profile").payload.ethos_score = 1500 ∧
    verifyAccessToken "k" "iss" 3600
        (generateAccessToken "k" "iss" 0 user42 "wallet" "0xA" "demo" "profile")
        none =
      Except.error ("Invalid access token: " ++ joseErrMessage JoseErr.expired) := by
  have h1 := (c9_token_round_trip "k" "iss" "wallet" "0xA" "demo" "profile"
    user42 0 1000 (by decide) (by decide)).1 (by decide)
  have h2 := (c9_token_round_trip "k" "iss" "wallet" "0xA" "demo" "profile"
    user42 0 3600 (by decide) (by decide)).2 (by decide)
  exact ⟨h1.1, h1.2.1, h1.2.2, h2⟩

/-- C6 (amended): every verification failure surfaces from the userinfo
endpoint under the single error code invalid_token, but the
error_description is the string Invalid access token: followed by the
verification library diagnostic, so the internal failure detail is
included rather than hidden. -/
theorem c6_userinfo_error_detail (secret issuer : String) (now : Nat)
    (t : Jwt) (e : JoseErr)
    (h : joseJwtVerify t secret issuer none now = .error e) :
    userinfoGET secret issuer now (some t) =
      .unauthorized "invalid_token"
        ("Invalid access token: " ++ joseErrMessage e) := by
  simp [userinfoGET, verifyAccessToken, h]

/-- C6 counterexample: two invalid tokens, one with a bad signature and
one expired, each reach the userinfo caller with a distinct
error_description that embeds the verification library diagnostic, so
the surfaced error is neither generic nor free of library internals. -/
theorem c6_counterexample :
    userinfoGET "k" "iss" 0
        (some (generateAccessToken "other" "iss" 0 user42 "wallet" "0xA"
          "demo" "profile")) =
      .unauthorized "invalid_token"
        "Invalid access token: signature verification failed" ∧
    userinfoGET "k" "iss" 999999
        (some (generateAccessToken "k" "iss" 0 user42 "wallet" "0xA"
          "demo" "profile")) =
      .unauthorized "invalid_token"
        "Invalid access token: \"exp\" claim timestamp check failed" ∧
    ("Invalid access token: signature verification failed" ≠
      "Invalid access token: \"exp\" claim timestamp check failed") := by
  refine ⟨by decide, by decide, by decide⟩

/-- Witness for C6: the amended statement applied to a concrete token
signed with a different secret. -/
theorem c6_userinfo_error_detail_witness :
    userinfoGET "k" "iss" 0
        (some (generateAccessToken "bad" "iss" 0 user42 "wallet" "0xA"
          "demo" "profile")) =
      .unauthorized "invalid_token"
        ("Invalid access token: " ++ joseErrMessage JoseErr.signatureInvalid) :=
  c6_userinfo_error_detail "k" "iss" 0
    (generateAccessToken "bad" "iss" 0 user42 "wallet" "0xA" "demo" "profile")
    JoseErr.signatureInvalid rfl

/-- C8: when the session carries a minimum score and the external steps
resolve a profile, the Twitter callback proceeds to code issuance
exactly when the profile score reaches the minimum, and otherwise
terminates with score_too_low carrying both values in the description. -/
theorem c8_score_gate (deps : TwitterDeps) (sess : TwitterSession)
    (params : TwitterCallbackParams) (m : Int) (toks : TwitterTokens)
    (tu : TwitterUser) (p : TwEthosProfile)
    (hmin : sess.minScore = some m)
    (hstate : params.state = some sess.state)
    (herr : jsFalsy params.error = true)
    (hcode : jsFalsy params.code = false)
    (hex : deps.exchangeCode (params.code.getD "") sess.codeVerifier = some toks)
    (hfu : deps.fetchUser toks.access_token = some tu)
    (hlp : deps.lookupEthosProfile tu.id (some tu.username) = some p) :
    (m ≤ p.score.value →
      twitterCallback deps (some sess) params =
        .codeIssued sess.redirectUri sess.state p) ∧
    (p.score.value < m →
      twitterCallback deps (some sess) params =
        .redirectError "score_too_low"
          ("Your Ethos score (" ++ toString p.score.value ++
            ") is below the minimum required (" ++ toString m ++ ")")) := by
  constructor
  · intro h
    have hnl : ¬ (p.score.value < m) := by omega
    simp [twitterCallback, hstate, herr, hcode, hex, hfu, hlp, hmin, hnl]
  · intro h
    simp [twitterCallback, hstate, herr, hcode, hex, hfu, hlp, hmin, h]

/-- Concrete external collaborators of the Twitter callback resolving a
profile with the given score. -/
def twitterDepsWithScore (score : Int) : TwitterDeps :=
  { exchangeCode := fun _ _ => some { access_token := "t1" }
    fetchUser := fun _ => some { id := "99", name := "Bob", username := "bob" }
    lookupEthosProfile := fun _ _ =>
      some { id := 7, profileId := 7, displayName := "Bob", username := some "bob",
             avatarUrl := none, score := { value := score }, status := "ACTIVE" } }

/-- Session fixture with minScore 1000. -/
def sess1000 : TwitterSession :=
  { redirectUri := "https://app/cb", state := "abc", codeVerifier := "v",
    minScore := some 1000 }

/-- Callback parameter fixture passing the early gates. -/
def twParamsOk : TwitterCallbackParams :=
  { code := some "twcode", state := some "abc", error := none,
    error_description := none }

/-- Witness for C8: with minScore 1000 a resolved profile with score
999 terminates in score_too_low naming 999 and 1000, and a profile
with score exactly 1000 proceeds to code issuance. -/
theorem c8_score_gate_witness :
    twitterCallback (twitterDepsWithScore 999) (some sess1000) twParamsOk =
      .redirectError "score_too_low"
        "Your Ethos score (999) is below the minimum required (1000)" ∧
    twitterCallback (twitterDepsWithScore 1000) (some sess1000) twParamsOk =
      .codeIssued "https://app/cb" "abc"
        { id := 7, profileId := 7, displayName := "Bob", username := some "bob",
          avatarUrl := none, score := { value := 1000 }, status := "ACTIVE" } := by
  have hlow := (c8_score_gate (twitterDepsWithScore 999) sess1000 twParamsOk
    1000 { access_token := "t1" } { id := "99", name := "Bob", username := "bob" }
    { id := 7, profileId := 7, displayName := "Bob", username := some "bob",
      avatarUrl := none, score := { value := 999 }, status := "ACTIVE" }
    rfl rfl (by decide) (by decide) rfl rfl rfl).2 (by decide)
  have hok := (c8_score_gate (twitterDepsWithScore 1000) sess1000 twParamsOk
    1000 { access_token := "t1" } { id := "99", name := "Bob", username := "bob" }
    { id := 7, profileId := 7, displayName := "Bob", username := some "bob",
      avatarUrl := none, score := { value := 1000 }, status := "ACTIVE" }
    rfl rfl (by decide) (by decide) rfl rfl rfl).1 (by decide)
  refine ⟨hlow.trans (by decide), hok⟩

theorem getAuthCode_fst_some_snd (now : Nat) (s : BrokerStore) (code : String)
    (d : AuthCodeData) (h : (getAuthCode now s code).1 = some d) :
    (getAuthCode now s code).2 = memDelete s (authCodeKey code) := by
  unfold getAuthCode at h ⊢
  cases hg : memGet now s (authCodeKey code) with
  | mk v s1 =>
    cases hv : asAuthCode v with
    | none => simp [hg, hv] at h
    | some d2 =>
      have hget : (memGet now s (authCodeKey code)).1 = some (StoreVal.authCode d2) := by
        rw [hg]
        cases v with
        | none => simp [asAuthCode] at hv
        | some sv =>
          cases sv with
          | client c2 => simp [asAuthCode] at hv
          | authCode d3 => simp [asAuthCode] at hv; simp [hv]
          | nonce n => simp [asAuthCode] at hv
      have hs1 : s1 = s := by
        have := memGet_fst_some_snd now s (authCodeKey code) _ hget
        rw [hg] at this
        exact this
      subst hs1
      simp [hg, hv]

theorem getAuthCode_of_lookup_none (now : Nat) (s : BrokerStore) (code : String)
    (h : memLookup s (authCodeKey code) = none) :
    getAuthCode now s code = (none, s) := by
  simp [getAuthCode, memGet_of_lookup_none now s _ h, asAuthCode]

/-- C1 (amended): with valid client credentials and a stored code, a
redemption whose client_id differs from the bound clientId is rejected
with invalid_grant, and with a matching client a redemption presenting
a nonempty redirect_uri different from the bound redirectUri is
rejected with invalid_grant; but a redemption that omits redirect_uri
(or sends it empty) skips the redirect binding check and a token is
issued. -/
theorem c1_code_binding (hash : String → String) (secret issuer : String)
    (now : Nat) (s : BrokerStore) (req : TokenReq) (c : AuthClient)
    (d : AuthCodeData)
    (hgt : req.grant_type = some "authorization_code")
    (hc : jsFalsy req.code = false)
    (hci : jsFalsy req.client_id = false)
    (hcs : jsFalsy req.client_secret = false)
    (hcl : (validateClient hash now s (req.client_id.getD "")
        (req.client_secret.getD "")).1 = some c)
    (hac : (getAuthCode now s (req.code.getD "")).1 = some d) :
    (d.clientId ≠ req.client_id.getD "" →
      (tokenEndpoint hash secret issuer now s req).1 =
        .err "invalid_grant" "Authorization code was not issued to this client" 400) ∧
    (d.clientId = req.client_id.getD "" → jsFalsy req.redirect_uri = false →
      d.redirectUri ≠ req.redirect_uri.getD "" →
      (tokenEndpoint hash secret issuer now s req).1 =
        .err "invalid_grant" "Redirect URI mismatch" 400) ∧
    (d.clientId = req.client_id.getD "" → jsFalsy req.redirect_uri = true →
      TokenResp.isToken (tokenEndpoint hash secret issuer now s req).1 = true) := by
  have hclp : validateClient hash now s (req.client_id.getD "")
      (req.client_secret.getD "") = (some c, s) := by
    have h2 := validateClient_fst_some_snd hash now s (req.client_id.getD "")
      (req.client_secret.getD "") c hcl
    calc validateClient hash now s (req.client_id.getD "") (req.client_secret.getD "")
        = ((validateClient hash now s (req.client_id.getD "")
            (req.client_secret.getD "")).1,
           (validateClient hash now s (req.client_id.getD "")
            (req.client_secret.getD "")).2) := rfl
      _ = (some c, s) := by rw [hcl, h2]
  have hacp : getAuthCode now s (req.code.getD "") =
      (some d, memDelete s (authCodeKey (req.code.getD ""))) := by
    have h2 := getAuthCode_fst_some_snd now s (req.code.getD "") d hac
    calc getAuthCode now s (req.code.getD "")
        = ((getAuthCode now s (req.code.getD "")).1,
           (getAuthCode now s (req.code.getD "")).2) := rfl
      _ = _ := by rw [hac, h2]
  refine ⟨?_, ?_, ?_⟩
  · intro hne
    simp [tokenEndpoint, hgt, hc, hci, hcs, hclp, hacp, hne]
  · intro heq hruri hne
    simp [tokenEndpoint, hgt, hc, hci, hcs, hclp, hacp, heq, hruri, hne]
  · intro heq hruri
    simp [tokenEndpoint, hgt, hc, hci, hcs, hclp, hacp, heq, hruri,
      TokenResp.isToken]

/-- Client fixture A. -/
def clientA : AuthClient :=
  { clientId := "clientA", clientSecretHash := sampleHash "secA",
    name := "A", redirectUris := ["https://app/cb"], createdAt := 0 }

/-- Client fixture B. -/
def clientB : AuthClient :=
  { clientId := "clientB", clientSecretHash := sampleHash "secB",
    name := "B", redirectUris := ["https://b.app/cb"], createdAt := 0 }

/-- Code fixture bound to clientA and https://app/cb. -/
def codeDataA : AuthCodeData :=
  { clientId := "clientA", redirectUri := "https://app/cb", scope := "profile",
    state := "abc", authMethod := "wallet", ethosUser := sampleUser,
    walletAddress := some "0xA", createdAt := 0 }

/-- Store fixture: both clients registered and the code codeX stored
for clientA with its 300 second TTL. -/
def bindingStore : BrokerStore :=
  [(clientKey "clientA", ⟨.client clientA, none⟩),
   (clientKey "clientB", ⟨.client clientB, none⟩),
   (authCodeKey "codeX", ⟨.authCode codeDataA, some 300000⟩)]

/-- C1 counterexample: the claim says a redemption that omits
redirect_uri entirely is rejected with invalid_grant, but the endpoint
only compares the redirect URI when the request carries one, so this
redemption with valid clientA credentials and no redirect_uri is
answered with a token. -/
theorem c1_counterexample :
    TokenResp.isToken (tokenEndpoint sampleHash "k" "iss" 0 bindingStore
      { grant_type := some "authorization_code", code := some "codeX",
        redirect_uri := none, client_id := some "clientA",
        client_secret := some "secA" }).1 = true := by decide

/-- Witness for C1: clientB presenting valid clientB credentials and
the code bound to clientA is rejected with invalid_grant. -/
theorem c1_code_binding_witness :
    (tokenEndpoint sampleHash "k" "iss" 0 bindingStore
      { grant_type := some "authorization_code", code := some "codeX",
        redirect_uri := some "https://b.app/cb", client_id := some "clientB",
        client_secret := some "secB" }).1 =
      .err "invalid_grant" "Authorization code was not issued to this client" 400 :=
  (c1_code_binding sampleHash "k" "iss" 0 bindingStore
    { grant_type := some "authorization_code", code := some "codeX",
      redirect_uri := some "https://b.app/cb", client_id := some "clientB",
      client_secret := some "secB" } clientB codeDataA
    rfl (by decide) (by decide) (by decide) (by decide) (by decide)).1
    (by decide)

theorem tokenEndpoint_ok_inv (hash : String → String) (secret issuer : String)
    (now : Nat) (s : BrokerStore) (req : TokenReq)
    (hok : TokenResp.isToken (tokenEndpoint hash secret issuer now s req).1 = true) :
    req.grant_type = some "authorization_code" ∧
    jsFalsy req.code = false ∧
    jsFalsy req.client_id = false ∧
    jsFalsy req.client_secret = false ∧
    ∃ c d,
      (validateClient hash now s (req.client_id.getD "")
          (req.client_secret.getD "")).1 = some c ∧
      (getAuthCode now s (req.code.getD "")).1 = some d ∧
      (tokenEndpoint hash secret issuer now s req).2 =
        memDelete s (authCodeKey (req.code.getD "")) := by
  have hu := hok
  unfold tokenEndpoint at hu
  split at hu
  · simp [TokenResp.isToken] at hu
  · split at hu
    · simp [TokenResp.isToken] at hu
    · split at hu
      · simp [TokenResp.isToken] at hu
      · rename_i hgt hc hcc
        have hgt2 : req.grant_type = some "authorization_code" := not_not.mp hgt
        have hc2 : jsFalsy req.code = false := by
          cases h : jsFalsy req.code
          · rfl
          · exact absurd h hc
        have hci2 : jsFalsy req.client_id = false := by
          cases h : jsFalsy req.client_id
          · rfl
          · exact absurd (by simp [h]) hcc
        have hcs2 : jsFalsy req.client_secret = false := by
          cases h : jsFalsy req.client_secret
          · rfl
          · exact absurd (by simp [h]) hcc
        split at hu
        · simp [TokenResp.isToken] at hu
        · rename_i client s1 hv
          split at hu
          · simp [TokenResp.isToken] at hu
          · rename_i acd s2 hg
            have hv1 : (validateClient hash now s (req.client_id.getD "")
                (req.client_secret.getD "")).1 = some client := by rw [hv]
            have hs1 : s1 = s := by
              have := validateClient_fst_some_snd hash now s
                (req.client_id.getD "") (req.client_secret.getD "") client hv1
              rw [hv] at this
              exact this
            subst hs1
            have hg1 : (getAuthCode now s1 (req.code.getD "")).1 = some acd := by
              rw [hg]
            have hg2 := getAuthCode_fst_some_snd now s1 (req.code.getD "") acd hg1
            rw [hg] at hg2
            subst hg2
            refine ⟨hgt2, hc2, hci2, hcs2, client, acd, hv1, hg1, ?_⟩
            simp [tokenEndpoint, hgt2, hc2, hci2, hcs2, hv, hg]
            split <;> first
              | rfl
              | (split <;> rfl)


theorem validateClient_some_pair (hash : String → String) (now : Nat)
    (s : BrokerStore) (i sec : String) (c : AuthClient)
    (h : (validateClient hash now s i sec).1 = some c) :
    validateClient hash now s i sec = (some c, s) := by
  have h2 := validateClient_fst_some_snd hash now s i sec c h
  calc validateClient hash now s i sec
      = ((validateClient hash now s i sec).1,
         (validateClient hash now s i sec).2) := rfl
    _ = (some c, s) := by rw [h, h2]

theorem getAuthCode_some_pair (now : Nat) (s : BrokerStore) (code : String)
    (d : AuthCodeData) (h : (getAuthCode now s code).1 = some d) :
    getAuthCode now s code = (some d, memDelete s (authCodeKey code)) := by
  have h2 := getAuthCode_fst_some_snd now s code d h
  calc getAuthCode now s code
      = ((getAuthCode now s code).1, (getAuthCode now s code).2) := rfl
    _ = _ := by rw [h, h2]

/-- C3: once a redemption at the token endpoint succeeds it has
consumed the stored code, so getAuthCode finds nothing afterwards and a
second identical redemption (with the client still validating against
the post-redemption store) fails with invalid_grant. -/
theorem c3_code_single_use (hash : String → String) (secret issuer : String)
    (now now2 : Nat) (s : BrokerStore) (req : TokenReq) (c2 : AuthClient)
    (hok : TokenResp.isToken (tokenEndpoint hash secret issuer now s req).1 = true)
    (hcl2 : (validateClient hash now2 (tokenEndpoint hash secret issuer now s req).2
        (req.client_id.getD "") (req.client_secret.getD "")).1 = some c2) :
    (getAuthCode now2 (tokenEndpoint hash secret issuer now s req).2
        (req.code.getD "")).1 = none ∧
    (tokenEndpoint hash secret issuer now2
        (tokenEndpoint hash secret issuer now s req).2 req).1 =
      .err "invalid_grant" "Invalid or expired authorization code" 400 := by
  obtain ⟨hgt, hc, hci, hcs, c, d, hcl, hac, hstore⟩ :=
    tokenEndpoint_ok_inv hash secret issuer now s req hok
  have hlk : memLookup (tokenEndpoint hash secret issuer now s req).2
      (authCodeKey (req.code.getD "")) = none := by
    rw [hstore]
    exact memLookup_memDelete_self s _
  have hacp2 : getAuthCode now2 (tokenEndpoint hash secret issuer now s req).2
      (req.code.getD "") = (none, (tokenEndpoint hash secret issuer now s req).2) :=
    getAuthCode_of_lookup_none now2 _ _ hlk
  refine ⟨by rw [hacp2], ?_⟩
  have hclp2 := validateClient_some_pair hash now2
    (tokenEndpoint hash secret issuer now s req).2 (req.client_id.getD "")
    (req.client_secret.getD "") c2 hcl2
  set sAfter := (tokenEndpoint hash secret issuer now s req).2 with hsA
  simp [tokenEndpoint, hgt, hc, hci, hcs, hclp2, hacp2]

/-- C10 (implicit): with valid client credentials and an existing code,
a redemption that fails either binding check, the clientId comparison
or the redirectUri comparison against a present redirect_uri, has
nevertheless consumed the code: the response is the invalid_grant error
of the failing check, the code entry is gone from the resulting store,
and a subsequent redemption presenting the same code (by any client
that validates, in particular the legitimate one) fails with the
invalid-or-expired-code error. -/
theorem c10_mismatch_consumes_code (hash : String → String)
    (secret issuer : String) (now now2 : Nat) (s : BrokerStore)
    (req req2 : TokenReq) (c c2 : AuthClient) (d : AuthCodeData)
    (hgt : req.grant_type = some "authorization_code")
    (hc : jsFalsy req.code = false)
    (hci : jsFalsy req.client_id = false)
    (hcs : jsFalsy req.client_secret = false)
    (hcl : (validateClient hash now s (req.client_id.getD "")
        (req.client_secret.getD "")).1 = some c)
    (hac : (getAuthCode now s (req.code.getD "")).1 = some d)
    (hmis : d.clientId ≠ req.client_id.getD "" ∨
      (d.clientId = req.client_id.getD "" ∧ jsFalsy req.redirect_uri = false ∧
        d.redirectUri ≠ req.redirect_uri.getD ""))
    (hgt2 : req2.grant_type = some "authorization_code")
    (hcode2 : req2.code = req.code)
    (hc2 : jsFalsy req2.code = false)
    (hci2 : jsFalsy req2.client_id = false)
    (hcs2 : jsFalsy req2.client_secret = false)
    (hcl2 : (validateClient hash now2 (tokenEndpoint hash secret issuer now s req).2
        (req2.client_id.getD "") (req2.client_secret.getD "")).1 = some c2) :
    (tokenEndpoint hash secret issuer now s req).1 =
      (if d.clientId ≠ req.client_id.getD "" then
        TokenResp.err "invalid_grant"
          "Authorization code was not issued to this client" 400
      else TokenResp.err "invalid_grant" "Redirect URI mismatch" 400) ∧
    memLookup (tokenEndpoint hash secret issuer now s req).2
      (authCodeKey (req.code.getD "")) = none ∧
    (tokenEndpoint hash secret issuer now2
        (tokenEndpoint hash secret issuer now s req).2 req2).1 =
      .err "invalid_grant" "Invalid or expired authorization code" 400 := by
  have hclp := validateClient_some_pair hash now s (req.client_id.getD "")
    (req.client_secret.getD "") c hcl
  have hacp := getAuthCode_some_pair now s (req.code.getD "") d hac
  have hrun1 : tokenEndpoint hash secret issuer now s req =
      ((if d.clientId ≠ req.client_id.getD "" then
          TokenResp.err "invalid_grant"
            "Authorization code was not issued to this client" 400
        else TokenResp.err "invalid_grant" "Redirect URI mismatch" 400),
        memDelete s (authCodeKey (req.code.getD ""))) := by
    rcases hmis with hne | ⟨heq, hruri, hne⟩
    · rw [if_pos hne]
      simp [tokenEndpoint, hgt, hc, hci, hcs, hclp, hacp, hne]
    · rw [if_neg (fun h => h heq)]
      simp [tokenEndpoint, hgt, hc, hci, hcs, hclp, hacp, heq, hruri, hne]
  refine ⟨by rw [hrun1], ?_, ?_⟩
  · rw [hrun1]
    exact memLookup_memDelete_self s _
  · have hlk : memLookup (tokenEndpoint hash secret issuer now s req).2
        (authCodeKey (req2.code.getD "")) = none := by
      rw [hrun1, hcode2]
      exact memLookup_memDelete_self s _
    have hacp2 : getAuthCode now2 (tokenEndpoint hash secret issuer now s req).2
        (req2.code.getD "") = (none, (tokenEndpoint hash secret issuer now s req).2) :=
      getAuthCode_of_lookup_none now2 _ _ hlk
    have hclp2 := validateClient_some_pair hash now2
      (tokenEndpoint hash secret issuer now s req).2 (req2.client_id.getD "")
      (req2.client_secret.getD "") c2 hcl2
    set sAfter := (tokenEndpoint hash secret issuer now s req).2 with hsA
    simp [tokenEndpoint, hgt2, hc2, hci2, hcs2, hclp2, hacp2]

/-- Witness for C3: clientA redeems codeX successfully once; the code
entry is then gone and the identical second redemption gets
invalid_grant. -/
theorem c3_code_single_use_witness :
    TokenResp.isToken (tokenEndpoint sampleHash "k" "iss" 0 bindingStore
      { grant_type := some "authorization_code", code := some "codeX",
        redirect_uri := some "https://app/cb", client_id := some "clientA",
        client_secret := some "secA" }).1 = true ∧
    (getAuthCode 5 (tokenEndpoint sampleHash "k" "iss" 0 bindingStore
      { grant_type := some "authorization_code", code := some "codeX",
        redirect_uri := some "https://app/cb", client_id := some "clientA",
        client_secret := some "secA" }).2 "codeX").1 = none ∧
    (tokenEndpoint sampleHash "k" "iss" 5
      (tokenEndpoint sampleHash "k" "iss" 0 bindingStore
        { grant_type := some "authorization_code", code := some "codeX",
          redirect_uri := some "https://app/cb", client_id := some "clientA",
          client_secret := some "secA" }).2
      { grant_type := some "authorization_code", code := some "codeX",
        redirect_uri := some "https://app/cb", client_id := some "clientA",
        client_secret := some "secA" }).1 =
      .err "invalid_grant" "Invalid or expired authorization code" 400 := by
  have h := c3_code_single_use sampleHash "k" "iss" 0 5 bindingStore
    { grant_type := some "authorization_code", code := some "codeX",
      redirect_uri := some "https://app/cb", client_id := some "clientA",
      client_secret := some "secA" } clientA (by decide) (by decide)
  exact ⟨by decide, h.1, h.2⟩

/-- Witness for C10, covering both binding checks: clientB burns the
code bound to clientA through the clientId-mismatch error, and on a
fresh copy of the store clientA itself burns the code by presenting a
different nonempty redirect_uri; in both scenarios the legitimate
clientA redemption that follows gets invalid_grant. -/
theorem c10_mismatch_consumes_code_witness :
    ((tokenEndpoint sampleHash "k" "iss" 0 bindingStore
      { grant_type := some "authorization_code", code := some "codeX",
        redirect_uri := some "https://b.app/cb", client_id := some "clientB",
        client_secret := some "secB" }).1 =
      .err "invalid_grant" "Authorization code was not issued to this client" 400 ∧
    memLookup (tokenEndpoint sampleHash "k" "iss" 0 bindingStore
      { grant_type := some "authorization_code", code := some "codeX",
        redirect_uri := some "https://b.app/cb", client_id := some "clientB",
        client_secret := some "secB" }).2 (authCodeKey "codeX") = none ∧
    (tokenEndpoint sampleHash "k" "iss" 5
      (tokenEndpoint sampleHash "k" "iss" 0 bindingStore
        { grant_type := some "authorization_code", code := some "codeX",
          redirect_uri := some "https://b.app/cb", client_id := some "clientB",
          client_secret := some "secB" }).2
      { grant_type := some "authorization_code", code := some "codeX",
        redirect_uri := some "https://app/cb", client_id := some "clientA",
        client_secret := some "secA" }).1 =
      .err "invalid_grant" "Invalid or expired authorization code" 400) ∧
    ((tokenEndpoint sampleHash "k" "iss" 0 bindingStore
      { grant_type := some "authorization_code", code := some "codeX",
        redirect_uri := some "https://evil.app/cb", client_id := some "clientA",
        client_secret := some "secA" }).1 =
      .err "invalid_grant" "Redirect URI mismatch" 400 ∧
    memLookup (tokenEndpoint sampleHash "k" "iss" 0 bindingStore
      { grant_type := some "authorization_code", code := some "codeX",
        redirect_uri := some "https://evil.app/cb", client_id := some "clientA",
        client_secret := some "secA" }).2 (authCodeKey "codeX") = none ∧
    (tokenEndpoint sampleHash "k" "iss" 5
      (tokenEndpoint sampleHash "k" "iss" 0 bindingStore
        { grant_type := some "authorization_code", code := some "codeX",
          redirect_uri := some "https://evil.app/cb", client_id := some "clientA",
          client_secret := some "secA" }).2
      { grant_type := some "authorization_code", code := some "codeX",
        redirect_uri := some "https://app/cb", client_id := some "clientA",
        client_secret := some "secA" }).1 =
      .err "invalid_grant" "Invalid or expired authorization code" 400) := by
  have h1 := c10_mismatch_consumes_code sampleHash "k" "iss" 0 5 bindingStore
    { grant_type := some "authorization_code", code := some "codeX",
      redirect_uri := some "https://b.app/cb", client_id := some "clientB",
      client_secret := some "secB" }
    { grant_type := some "authorization_code", code := some "codeX",
      redirect_uri := some "https://app/cb", client_id := some "clientA",
      client_secret := some "secA" }
    clientB clientA codeDataA
    rfl (by decide) (by decide) (by decide) (by decide) (by decide)
    (by decide) rfl rfl (by decide) (by decide) (by decide) (by decide)
  have h2 := c10_mismatch_consumes_code sampleHash "k" "iss" 0 5 bindingStore
    { grant_type := some "authorization_code", code := some "codeX",
      redirect_uri := some "https://evil.app/cb", client_id := some "clientA",
      client_secret := some "secA" }
    { grant_type := some "authorization_code", code := some "codeX",
      redirect_uri := some "https://app/cb", client_id := some "clientA",
      client_secret := some "secA" }
    clientA clientA codeDataA
    rfl (by decide) (by decide) (by decide) (by decide) (by decide)
    (by decide) rfl rfl (by decide) (by decide) (by decide) (by decide)
  exact ⟨⟨h1.1.trans (by decide), h1.2.1, h1.2.2⟩,
    ⟨h2.1.trans (by decide), h2.2.1, h2.2.2⟩⟩

theorem nonceKey_ne_authCodeKey (n c : String) : nonceKey n ≠ authCodeKey c := by
  simp [nonceKey, authCodeKey]

theorem walletVerify_no_nonce (deps : WalletDeps) (now2 : Nat) (s2 : BrokerStore)
    (req : WalletReq) (parsed : SIWEMessage)
    (hf : (jsFalsy req.message || jsFalsy req.signature || jsFalsy req.address) = false)
    (hvalid : deps.isValidEthereumAddress (req.address.getD "") = true)
    (hp : deps.parseSIWEMessage (req.message.getD "") = some parsed)
    (hlk : memLookup s2 (nonceKey parsed.nonce) = none) :
    (walletVerify deps now2 s2 req).1 = .errInvalidNonce := by
  simp [walletVerify, hf, hvalid, hp, memGet_of_lookup_none now2 s2 _ hlk, asNonce]

/-- C5: whenever a wallet verification run reaches the signature
verification step (it went past the nonce gate), the nonce was already
deleted from the store, so re-submitting the same request afterwards at
any time fails with the invalid-or-expired-nonce error, whatever the
signature verification outcome was or would be. -/
theorem c5_nonce_deleted_before_verify (deps : WalletDeps) (now now2 : Nat)
    (s : BrokerStore) (req : WalletReq)
    (h : reachedSignatureStep (walletVerify deps now s req).1 = true) :
    (walletVerify deps now2 (walletVerify deps now s req).2 req).1 =
      .errInvalidNonce := by
  by_cases h1 : (jsFalsy req.message || jsFalsy req.signature || jsFalsy req.address) = true
  · simp [walletVerify, h1, reachedSignatureStep] at h
  · have hf : (jsFalsy req.message || jsFalsy req.signature || jsFalsy req.address) = false :=
      by revert h1; cases jsFalsy req.message || jsFalsy req.signature || jsFalsy req.address <;> simp
    by_cases hv : deps.isValidEthereumAddress (req.address.getD "") = true
    · cases hp : deps.parseSIWEMessage (req.message.getD "") with
      | none => simp [walletVerify, hf, hv, hp, reachedSignatureStep] at h
      | some parsed =>
        cases hm : memGet now s (nonceKey parsed.nonce) with
        | mk v s1 =>
          cases hn : asNonce v with
          | none => simp [walletVerify, hf, hv, hp, hm, hn, reachedSignatureStep] at h
          | some nv =>
            by_cases hex : (match nv.expiresAt with
                | some t => decide (t < now)
                | none => false : Bool) = true
            · simp [walletVerify, hf, hv, hp, hm, hn, hex, reachedSignatureStep] at h
            · have hexf : (match nv.expiresAt with
                  | some t => decide (t < now)
                  | none => false : Bool) = false := by
                revert hex
                cases (match nv.expiresAt with
                  | some t => decide (t < now)
                  | none => false : Bool) <;> simp
              by_cases hvs : (deps.verifySIWEMessage (req.message.getD "")
                  (req.signature.getD "")).success = true
              · by_cases hme : (match parsed.expirationTime with
                    | some t => decide (t < now)
                    | none => false : Bool) = true
                · have hst : (walletVerify deps now s req).2 =
                      memDelete s1 (nonceKey parsed.nonce) := by
                    simp [walletVerify, hf, hv, hp, hm, hn, hexf, hvs, hme]
                  apply walletVerify_no_nonce deps now2 _ req parsed hf hv hp
                  rw [hst]
                  exact memLookup_memDelete_self s1 _
                · have hmef : (match parsed.expirationTime with
                      | some t => decide (t < now)
                      | none => false : Bool) = false := by
                    revert hme
                    cases (match parsed.expirationTime with
                      | some t => decide (t < now)
                      | none => false : Bool) <;> simp
                  cases hprof : deps.getProfileByAddress (req.address.getD "") with
                  | found u =>
                    have hst : (walletVerify deps now s req).2 =
                        memSet now (memDelete s1 (nonceKey parsed.nonce))
                          (authCodeKey deps.freshCode)
                          (.authCode
                            { clientId := "wallet-auth"
                              redirectUri := req.redirect_uri.getD ""
                              scope := "profile"
                              state := req.state.getD ""
                              authMethod := "wallet"
                              ethosUser := u
                              walletAddress := some ((deps.verifySIWEMessage
                                (req.message.getD "") (req.signature.getD "")).address)
                              createdAt := now }) (some 300) := by
                      simp [walletVerify, generateAuthCode, hf, hv, hp, hm, hn,
                        hexf, hvs, hmef, hprof]
                    apply walletVerify_no_nonce deps now2 _ req parsed hf hv hp
                    rw [hst]
                    rw [memSet, memLookup_memSetItem_ne _ _ _ _
                      (nonceKey_ne_authCodeKey parsed.nonce deps.freshCode)]
                    exact memLookup_memDelete_self s1 _
                  | notFound =>
                    have hst : (walletVerify deps now s req).2 =
                        memDelete s1 (nonceKey parsed.nonce) := by
                      simp [walletVerify, hf, hv, hp, hm, hn, hexf, hvs, hmef, hprof]
                    apply walletVerify_no_nonce deps now2 _ req parsed hf hv hp
                    rw [hst]
                    exact memLookup_memDelete_self s1 _
                  | upstreamFailure =>
                    have hst : (walletVerify deps now s req).2 =
                        memDelete s1 (nonceKey parsed.nonce) := by
                      simp [walletVerify, hf, hv, hp, hm, hn, hexf, hvs, hmef, hprof]
                    apply walletVerify_no_nonce deps now2 _ req parsed hf hv hp
                    rw [hst]
                    exact memLookup_memDelete_self s1 _
              · have hvsf : (deps.verifySIWEMessage (req.message.getD "")
                    (req.signature.getD "")).success = false := by
                  revert hvs
                  cases (deps.verifySIWEMessage (req.message.getD "")
                    (req.signature.getD "")).success <;> simp
                have hst : (walletVerify deps now s req).2 =
                    memDelete s1 (nonceKey parsed.nonce) := by
                  simp [walletVerify, hf, hv, hp, hm, hn, hexf, hvsf]
                apply walletVerify_no_nonce deps now2 _ req parsed hf hv hp
                rw [hst]
                exact memLookup_memDelete_self s1 _
    · have hvf : deps.isValidEthereumAddress (req.address.getD "") = false := by
        revert hv
        cases deps.isValidEthereumAddress (req.address.getD "") <;> simp
      simp [walletVerify, hf, hvf, reachedSignatureStep] at h

/-- Wallet verify collaborators fixture: address 0xABC validates, the
message siwe-msg-n1 parses to nonce n1, the signature verifies, and the
profile resolves. -/
def walletDepsOk : WalletDeps :=
  { isValidEthereumAddress := fun a => a == "0xABC"
    parseSIWEMessage := fun m =>
      if m == "siwe-msg-n1" then
        some { domain := "app", nonce := "n1", expirationTime := none }
      else none
    verifySIWEMessage := fun _ _ =>
      { success := true, address := "0xABC", error := none }
    getProfileByAddress := fun _ => .found sampleUser
    freshCode := "freshc1" }

/-- Store fixture holding the live nonce n1. -/
def nonceStore : BrokerStore :=
  [(nonceKey "n1", ⟨.nonce { expiresAt := some 300000 }, some 300000⟩)]

/-- Wallet verify request fixture embedding nonce n1. -/
def walletReq1 : WalletReq :=
  { message := some "siwe-msg-n1", signature := some "sig",
    address := some "0xABC", redirect_uri := none, state := none }

/-- Witness for C5: a completed successful verification run consumed
nonce n1, and replaying the identical request afterwards fails with the
invalid-or-expired-nonce error. -/
theorem c5_nonce_deleted_witness :
    reachedSignatureStep (walletVerify walletDepsOk 0 nonceStore walletReq1).1 = true ∧
    (walletVerify walletDepsOk 5
        (walletVerify walletDepsOk 0 nonceStore walletReq1).2 walletReq1).1 =
      .errInvalidNonce :=
  ⟨by decide,
    c5_nonce_deleted_before_verify walletDepsOk 0 5 nonceStore walletReq1 (by decide)⟩

/-- C7: an artifact whose store TTL has elapsed behaves exactly like a
never-stored one: the adapter get returns null (and behaves as on the
store with the entry removed), and a wallet verification presenting a
nonce whose stored entry has expired runs exactly as it would with no
entry at all, failing with the same invalid-or-expired-nonce error. -/
theorem c7_expiry_like_never_issued :
    (∀ (now : Nat) (s : BrokerStore) (k : StoreKey) (it : MemItem StoreVal) (t : Nat),
      memLookup s k = some it → it.expiresAt = some t → t < now →
      memGet now s k = (none, memDelete s k) ∧
      memGet now (memDelete s k) k = (none, memDelete s k)) ∧
    (∀ (deps : WalletDeps) (now : Nat) (s : BrokerStore) (req : WalletReq)
      (parsed : SIWEMessage) (it : MemItem StoreVal) (t : Nat),
      (jsFalsy req.message || jsFalsy req.signature || jsFalsy req.address) = false →
      deps.isValidEthereumAddress (req.address.getD "") = true →
      deps.parseSIWEMessage (req.message.getD "") = some parsed →
      memLookup s (nonceKey parsed.nonce) = some it →
      it.expiresAt = some t → t < now →
      walletVerify deps now s req =
        walletVerify deps now (memDelete s (nonceKey parsed.nonce)) req ∧
      (walletVerify deps now s req).1 = .errInvalidNonce) := by
  have hget : ∀ (now : Nat) (s : BrokerStore) (k : StoreKey)
      (it : MemItem StoreVal) (t : Nat),
      memLookup s k = some it → it.expiresAt = some t → t < now →
      memGet now s k = (none, memDelete s k) := by
    intro now s k it t hl he ht
    simp [memGet, hl, he, ht]
  refine ⟨fun now s k it t hl he ht =>
    ⟨hget now s k it t hl he ht, memGet_memDelete_self now s k⟩, ?_⟩
  intro deps now s req parsed it t hf hv hp hl he ht
  have e1 : walletVerify deps now s req =
      (.errInvalidNonce, memDelete s (nonceKey parsed.nonce)) := by
    simp [walletVerify, hf, hv, hp, hget now s _ it t hl he ht, asNonce]
  have e2 : walletVerify deps now (memDelete s (nonceKey parsed.nonce)) req =
      (.errInvalidNonce, memDelete s (nonceKey parsed.nonce)) := by
    simp [walletVerify, hf, hv, hp, memGet_memDelete_self now s _, asNonce]
  exact ⟨e1.trans e2.symm, by rw [e1]⟩

/-- Store fixture holding nonce n1 already past its TTL. -/
def expiredNonceStore : BrokerStore :=
  [(nonceKey "n1", ⟨.nonce { expiresAt := some 1000 }, some 1000⟩)]

/-- Witness for C7 at time 2000 on an entry that expired at 1000. -/
theorem c7_expiry_witness :
    (memGet 2000 expiredNonceStore (nonceKey "n1") =
      (none, memDelete expiredNonceStore (nonceKey "n1")) ∧
     memGet 2000 (memDelete expiredNonceStore (nonceKey "n1")) (nonceKey "n1") =
      (none, memDelete expiredNonceStore (nonceKey "n1"))) ∧
    (walletVerify walletDepsOk 2000 expiredNonceStore walletReq1 =
      walletVerify walletDepsOk 2000
        (memDelete expiredNonceStore (nonceKey "n1")) walletReq1 ∧
     (walletVerify walletDepsOk 2000 expiredNonceStore walletReq1).1 =
      .errInvalidNonce) :=
  ⟨c7_expiry_like_never_issued.1 2000 expiredNonceStore (nonceKey "n1")
      ⟨.nonce { expiresAt := some 1000 }, some 1000⟩ 1000 rfl rfl (by decide),
   c7_expiry_like_never_issued.2 walletDepsOk 2000 expiredNonceStore walletReq1
      { domain := "app", nonce := "n1", expirationTime := none }
      ⟨.nonce { expiresAt := some 1000 }, some 1000⟩ 1000
      (by decide) (by decide) (by decide) rfl rfl (by decide)⟩

/-- Store fixture holding the authorization code c1, unexpired. -/
def raceStore : BrokerStore :=
  [(authCodeKey "c1", ⟨.authCode codeDataA, some 300000⟩)]

/-- C4 counterexample: because the consume in getAuthCode is a read
followed by a separate delete, the interleaving g1 g2 d1 d2 of two
concurrent redeemers of the same code lets BOTH obtain the stored data,
refuting the exactly-one-success claim and exhibiting the consequence
of the consume not being one atomic primitive. -/
theorem c4_counterexample :
    (runRace (getThenDeleteStep 0 "c1") [true, false, true, false]
      ⟨raceStore, .ready, .ready⟩).p1 = .finished (some codeDataA) ∧
    (runRace (getThenDeleteStep 0 "c1") [true, false, true, false]
      ⟨raceStore, .ready, .ready⟩).p2 = .finished (some codeDataA) := by
  refine ⟨by decide, by decide⟩

/-- Invariant of two redeemers racing with an atomic consume: before
anyone steps the code is live, and afterwards the code is gone and
exactly the first process to have stepped holds the data. -/
def atomicInv (now : Nat) (code : String) (d : AuthCodeData)
    (sys : RaceSystem) : Prop :=
  (sys.p1 = .ready ∧ sys.p2 = .ready ∧
    fetchAuthCode now sys.store code = some d) ∨
  (sys.p1 = .finished (some d) ∧ sys.p2 = .ready ∧
    fetchAuthCode now sys.store code = none) ∨
  (sys.p1 = .ready ∧ sys.p2 = .finished (some d) ∧
    fetchAuthCode now sys.store code = none) ∨
  (sys.p1 = .finished (some d) ∧ sys.p2 = .finished none ∧
    fetchAuthCode now sys.store code = none) ∨
  (sys.p1 = .finished none ∧ sys.p2 = .finished (some d) ∧
    fetchAuthCode now sys.store code = none)

theorem atomicInv_step (now : Nat) (code : String) (d : AuthCodeData)
    (b : Bool) (sys : RaceSystem) (h : atomicInv now code d sys) :
    atomicInv now code d (raceStep (atomicConsumeStep now code) b sys) := by
  have hdel : ∀ X : BrokerStore,
      asAuthCode (memGet now (memDelete X (authCodeKey code)) (authCodeKey code)).1 = none := by
    intro X
    simp [memGet_memDelete_self, asAuthCode]
  rcases h with ⟨h1, h2, h3⟩ | ⟨h1, h2, h3⟩ | ⟨h1, h2, h3⟩ | ⟨h1, h2, h3⟩ | ⟨h1, h2, h3⟩ <;>
    cases b <;>
    simp only [fetchAuthCode] at h3 <;>
    simp [atomicInv, raceStep, atomicConsumeStep, fetchAuthCode, h1, h2, h3, hdel]

theorem runRace_atomicInv (now : Nat) (code : String) (d : AuthCodeData)
    (sched : List Bool) (sys : RaceSystem) (h : atomicInv now code d sys) :
    atomicInv now code d (runRace (atomicConsumeStep now code) sched sys) := by
  induction sched generalizing sys with
  | nil => exact h
  | cons b rest ih =>
    exact ih (raceStep (atomicConsumeStep now code) b sys)
      (atomicInv_step now code d b sys h)

theorem runRace_p1_not_ready (now : Nat) (code : String) (sched : List Bool)
    (sys : RaceSystem) (h : true ∈ sched ∨ sys.p1 ≠ .ready) :
    (runRace (atomicConsumeStep now code) sched sys).p1 ≠ .ready := by
  induction sched generalizing sys with
  | nil =>
    rcases h with h | h
    · simp at h
    · exact h
  | cons b rest ih =>
    have hstep : ∀ sys2 : RaceSystem, sys2.p1 ≠ .ready ∨ b = true →
        (raceStep (atomicConsumeStep now code) b sys2).p1 ≠ .ready := by
      intro sys2 hh
      cases b
      · rcases hh with hh | hh
        · simpa [raceStep] using hh
        · exact absurd hh (by simp)
      · cases hp : sys2.p1 <;> simp [raceStep, atomicConsumeStep, hp]
    rcases h with h | h
    · rcases List.mem_cons.mp h with hb | hb
      · exact ih (raceStep (atomicConsumeStep now code) b sys)
          (Or.inr (hstep sys (Or.inr hb.symm)))
      · by_cases hp : sys.p1 = .ready
        · exact ih _ (Or.inl hb)
        · exact ih _ (Or.inr (hstep sys (Or.inl hp)))
    · exact ih _ (Or.inr (hstep sys (Or.inl h)))

theorem runRace_p2_not_ready (now : Nat) (code : String) (sched : List Bool)
    (sys : RaceSystem) (h : false ∈ sched ∨ sys.p2 ≠ .ready) :
    (runRace (atomicConsumeStep now code) sched sys).p2 ≠ .ready := by
  induction sched generalizing sys with
  | nil =>
    rcases h with h | h
    · simp at h
    · exact h
  | cons b rest ih =>
    have hstep : ∀ sys2 : RaceSystem, sys2.p2 ≠ .ready ∨ b = false →
        (raceStep (atomicConsumeStep now code) b sys2).p2 ≠ .ready := by
      intro sys2 hh
      cases b
      · cases hp : sys2.p2 <;> simp [raceStep, atomicConsumeStep, hp]
      · rcases hh with hh | hh
        · simpa [raceStep] using hh
        · exact absurd hh (by simp)
    rcases h with h | h
    · rcases List.mem_cons.mp h with hb | hb
      · exact ih (raceStep (atomicConsumeStep now code) b sys)
          (Or.inr (hstep sys (Or.inr hb.symm)))
      · by_cases hp : sys.p2 = .ready
        · exact ih _ (Or.inl hb)
        · exact ih _ (Or.inr (hstep sys (Or.inl hp)))
    · exact ih _ (Or.inr (hstep sys (Or.inl h)))

/-- C4 (amended): when the consume is a single atomic get-and-delete
step, as the Lua script of the Redis challenge store is, any schedule
that runs both concurrent redeemers of a live code ends with exactly
one holding the data and the other holding nothing; the two-round-trip
consume of getAuthCode does not have this property (see the
interleaving in the counterexample). -/
theorem c4_atomic_exactly_one (now : Nat) (code : String) (s0 : BrokerStore)
    (d : AuthCodeData) (sched : List Bool)
    (hlive : fetchAuthCode now s0 code = some d)
    (hs1 : true ∈ sched) (hs2 : false ∈ sched) :
    ((runRace (atomicConsumeStep now code) sched ⟨s0, .ready, .ready⟩).p1 =
        .finished (some d) ∧
     (runRace (atomicConsumeStep now code) sched ⟨s0, .ready, .ready⟩).p2 =
        .finished none) ∨
    ((runRace (atomicConsumeStep now code) sched ⟨s0, .ready, .ready⟩).p1 =
        .finished none ∧
     (runRace (atomicConsumeStep now code) sched ⟨s0, .ready, .ready⟩).p2 =
        .finished (some d)) := by
  have hinv := runRace_atomicInv now code d sched ⟨s0, .ready, .ready⟩
    (Or.inl ⟨rfl, rfl, hlive⟩)
  have hn1 := runRace_p1_not_ready now code sched ⟨s0, .ready, .ready⟩ (Or.inl hs1)
  have hn2 := runRace_p2_not_ready now code sched ⟨s0, .ready, .ready⟩ (Or.inl hs2)
  rcases hinv with ⟨e1, _, _⟩ | ⟨_, e2, _⟩ | ⟨e1, _, _⟩ | ⟨e1, e2, _⟩ | ⟨e1, e2, _⟩
  · exact absurd e1 hn1
  · exact absurd e2 hn2
  · exact absurd e1 hn1
  · exact Or.inl ⟨e1, e2⟩
  · exact Or.inr ⟨e1, e2⟩

/-- Witness for C4: the two-element schedule running redeemer 1 then
redeemer 2 with the atomic consume on the live code c1 yields exactly
one success. -/
theorem c4_atomic_exactly_one_witness :
    ((runRace (atomicConsumeStep 0 "c1") [true, false]
        ⟨raceStore, .ready, .ready⟩).p1 = .finished (some codeDataA) ∧
     (runRace (atomicConsumeStep 0 "c1") [true, false]
        ⟨raceStore, .ready, .ready⟩).p2 = .finished none) ∨
    ((runRace (atomicConsumeStep 0 "c1") [true, false]
        ⟨raceStore, .ready, .ready⟩).p1 = .finished none ∧
     (runRace (atomicConsumeStep 0 "c1") [true, false]
        ⟨raceStore, .ready, .ready⟩).p2 = .finished (some codeDataA)) :=
  c4_atomic_exactly_one 0 "c1" raceStore codeDataA [true, false]
    (by decide) (by decide) (by decide)
